import Mathlib

/-!
Verification of the Template Import Coordinator (`importer.go` of gofpdi).

The Go file `importer.go` is shallowly embedded below.  Go maps become
functions into `Option`, Go strings stay `String`, Go `int` becomes `Int`
(the coordinator never performs arithmetic that can overflow in scope here;
it only increments a counter), and a Go `(T, error)` pair becomes
`T × Option GoErr`.  A Go nil-pointer dereference (calling a method on a
nil `*PdfReader`, `*PdfWriter` or `*TplInfo`) is a runtime panic; the
`Outcome` type distinguishes a panic from a normal return.

The `PdfReader` and `PdfWriter` collaborators live in other files of the
repository that are not part of the analysed source; their behaviour is
taken from the specification's external-interface contract (section 6) and
is parameterised by an `Env` record, so every theorem quantifies over all
possible collaborator behaviours unless it instantiates a concrete one.
-/

/-- Go `error` values are modelled as plain strings (only identity and
presence matter to the coordinator). -/
abbrev GoErr := String

/-- Modelled from the spec: a serialized-object identifier as produced by a
Writer, carrying both the sequential integer id and the content-hash id
(`PdfObjId` with fields `id` and `hash` in the repository). -/
structure PdfObjId where
  id : Int
  hash : String
deriving DecidableEq

/-- Modelled from the spec: the Reader collaborator (`pdf_reader.go`, not in
the analysed source).  One Reader corresponds to one source document; the
only Reader query the coordinator claims depend on is `getNumPages`, whose
result (page count or parse error) is stored as data here. -/
structure PdfReader where
  numPagesRes : Except GoErr Int

/-- Modelled from the spec: the Writer collaborator (`pdf_writer.go`, not in
the analysed source).  Only the writer state that the coordinator itself
sets is modelled: the template-id offset (`SetTplIdOffset`), the
hash-mode flag (`SetUseHash`) and the next-object id (`SetNextObjectID`).
The spec's writer contract gives no operation that clears the hash-mode
flag once set. -/
structure PdfWriter where
  tplIdOffset : Int
  useHash : Bool
  nextObjId : Int
deriving DecidableEq

/-- Outcome of a Go call: either a normal return or a runtime panic
(nil-pointer dereference).  Every panic reachable in the embedded code
happens before any mutation, so a panicking call leaves the coordinator
state unchanged. -/
inductive Outcome (α : Type) : Type where
  | panics : Outcome α
  | returns : α → Outcome α
deriving DecidableEq

/-- Behaviour of the external collaborators, quantified over in the
theorems.  `writerImportPage` is the Writer's page-import operation
(writer-local template id or failure); `writerPutFormXobjects` is the
Writer's export operation; `writerUseTemplate` computes placement
parameters.  Constructors `NewPdfReader` / `NewPdfWriter` may fail, as in
the source. -/
structure Env where
  newPdfReader : String → Except GoErr PdfReader
  newPdfReaderFromStream : String → Except GoErr PdfReader
  newPdfWriter : String → Except GoErr PdfWriter
  writerImportPage : PdfWriter → Option PdfReader → Int → String → Except GoErr Int
  writerPutFormXobjects : PdfWriter → Option PdfReader → Except GoErr (List (String × PdfObjId))
  writerUseTemplate : PdfWriter → Int → Rat → Rat → Rat → Rat → String × Rat × Rat × Rat × Rat

/-- Struct `TplInfo` from `importer.go`.  The Go field `Writer *PdfWriter` points
at the writer stored in the importer's `writers` map; since exactly one
writer is ever created per source-file key and never replaced, pointer
identity is faithfully modelled by storing the key (`Writer : String`). -/
structure TplInfo where
  SourceFile : String
  Writer : String
  TemplateId : Int
deriving DecidableEq

/-- The `Importer` struct from `importer.go`.  Go maps are functions into
`Option`; `writer` is the throwaway writer created by `init` (never read
afterwards in the source, kept for fidelity). -/
structure Importer where
  sourceFile : String
  readers : String → Option PdfReader
  writers : String → Option PdfWriter
  tplMap : Int → Option TplInfo
  tplN : Int
  writer : Option PdfWriter
  importedPages : String → Option Int

/-- Pointwise update of a Go map. -/
def mapUpd {κ α : Type} [DecidableEq κ] (m : κ → Option α) (k : κ) (v : α) :
    κ → Option α :=
  fun x => if x = k then some v else m x

/-- The decimal digit character for `d % 10`-sized values (`0`–`9`). -/
def digitChar (d : Nat) : Char :=
  match d with
  | 0 => '0'
  | 1 => '1'
  | 2 => '2'
  | 3 => '3'
  | 4 => '4'
  | 5 => '5'
  | 6 => '6'
  | 7 => '7'
  | 8 => '8'
  | _ => '9'

/-- Fuel-driven decimal digit expansion (most significant first), used to
model Go's `%d` formatting of a natural number. -/
def natDigitsCore : Nat → Nat → List Char → List Char
  | 0, _, acc => acc
  | fuel + 1, n, acc =>
    if n < 10 then digitChar n :: acc
    else natDigitsCore fuel (n / 10) (digitChar (n % 10) :: acc)

/-- Decimal digits of a natural number, most significant first. -/
def natDigits (n : Nat) : List Char := natDigitsCore (n + 1) n []

/-- Left-pad a character list to width `w` with `c` (no-op when already at
least `w` long), as Go's zero padding does. -/
def padLeft (c : Char) (w : Nat) (s : List Char) : List Char :=
  List.replicate (w - s.length) c ++ s

/-- Go's `fmt.Sprintf("%04d", p)`: minimum width 4, zero padded, the sign
counted inside the width and the zeros placed after the sign. -/
def pad4 (p : Int) : List Char :=
  if p < 0 then '-' :: padLeft '0' 3 (natDigits p.natAbs)
  else padLeft '0' 4 (natDigits p.toNat)

/-- The dedup-cache key of `ImportPage`:
`fmt.Sprintf("%s-%04d", importer.sourceFile, pageno)`.  The box is not part
of the key. -/
def pageNameNumber (f : String) (p : Int) : String :=
  f ++ "-" ++ String.mk (pad4 p)

/-- Function `GetReaderForFile` from `importer.go` (comma-ok map lookup, nil when
absent). -/
def GetReaderForFile (imp : Importer) (file : String) : Option PdfReader :=
  match imp.readers file with
  | some _ => imp.readers file
  | none => none

/-- Function `GetWriterForFile` from `importer.go`. -/
def GetWriterForFile (imp : Importer) (file : String) : Option PdfWriter :=
  match imp.writers file with
  | some _ => imp.writers file
  | none => none

/-- Function `GetReader` from `importer.go`: reader of the currently active source
file. -/
def GetReader (imp : Importer) : Option PdfReader :=
  GetReaderForFile imp imp.sourceFile

/-- Function `GetWriter` from `importer.go`: writer of the currently active source
file. -/
def GetWriter (imp : Importer) : Option PdfWriter :=
  GetWriterForFile imp imp.sourceFile

/-- Functions `NewImporter` / `init` from `importer.go`: empty registries, zero
template counter, empty page cache; the error of the throwaway
`NewPdfWriter("")` call is discarded in the source. -/
def NewImporter (env : Env) : Importer :=
  { sourceFile := ""
    readers := fun _ => none
    writers := fun _ => none
    tplMap := fun _ => none
    tplN := 0
    writer := (env.newPdfWriter "").toOption
    importedPages := fun _ => none }

/-- The writer-creation half of `SetSourceFile` / `SetSourceStream`: if no
writer exists for the active source file, create one and set its
template-id offset to the current value of the importer's `tplN`
counter. -/
def setWriterPart (env : Env) (imp : Importer) : Option GoErr × Importer :=
  match imp.writers imp.sourceFile with
  | some _ => (none, imp)
  | none =>
    match env.newPdfWriter "" with
    | Except.error e => (some e, imp)
    | Except.ok w =>
      (none, { imp with
        writers := mapUpd imp.writers imp.sourceFile ({ w with tplIdOffset := imp.tplN }) })

/-- Function `SetSourceFile` from `importer.go`.  The active source key is switched
first; the reader is then created on demand (early return on failure, with
the key already switched), then the writer. -/
def SetSourceFile (env : Env) (imp : Importer) (f : String) :
    Option GoErr × Importer :=
  match imp.readers f with
  | some _ => setWriterPart env ({ imp with sourceFile := f })
  | none =>
    match env.newPdfReader f with
    | Except.error e => (some e, { imp with sourceFile := f })
    | Except.ok r =>
      setWriterPart env ({ imp with sourceFile := f, readers := mapUpd imp.readers f r })

/-- Function `SetSourceStream` from `importer.go`; the key is the string Go obtains
by formatting the stream handle, taken here as an argument. -/
def SetSourceStream (env : Env) (imp : Importer) (handle : String) :
    Option GoErr × Importer :=
  match imp.readers handle with
  | some _ => setWriterPart env ({ imp with sourceFile := handle })
  | none =>
    match env.newPdfReaderFromStream handle with
    | Except.error e => (some e, { imp with sourceFile := handle })
    | Except.ok r =>
      setWriterPart env
        ({ imp with sourceFile := handle, readers := mapUpd imp.readers handle r })

/-- Function `GetNumPages` from `importer.go`: delegates to the active reader with
no nil check; on an unbound key `GetReader()` is nil and the delegated
method dereferences a nil receiver (panic). -/
def GetNumPages (imp : Importer) : Outcome (Int × Option GoErr) :=
  match GetReader imp with
  | none => Outcome.panics
  | some r =>
    match r.numPagesRes with
    | Except.error e => Outcome.returns (0, some e)
    | Except.ok n => Outcome.returns (n, none)

/-- State written by a successful fresh import (`ImportPage` lines 158–168
of `importer.go`): record the `TplInfo` under the current `tplN`, increment
the counter, cache the page under its name-number key. -/
def importPost (imp : Importer) (pageno : Int) (res : Int) : Importer :=
  { imp with
    tplMap := mapUpd imp.tplMap imp.tplN
      ({ SourceFile := imp.sourceFile, Writer := imp.sourceFile,
         TemplateId := res })
    tplN := imp.tplN + 1
    importedPages := mapUpd imp.importedPages (pageNameNumber imp.sourceFile pageno) imp.tplN }

/-- Function `ImportPage` from `importer.go`.  Cache hit returns the cached id;
otherwise the active writer's import runs against the active reader.  On
writer failure the source executes `return 0, nil`: the error value is
discarded and nothing is mutated.  On success the current `tplN` is
recorded in `tplMap` and the page cache, the counter is incremented, and
the pre-increment value is returned.  A nil active writer panics. -/
def ImportPage (env : Env) (imp : Importer) (pageno : Int) (box : String) :
    Outcome ((Int × Option GoErr) × Importer) :=
  match imp.importedPages (pageNameNumber imp.sourceFile pageno) with
  | some t => Outcome.returns ((t, none), imp)
  | none =>
    match GetWriter imp with
    | none => Outcome.panics
    | some w =>
      match env.writerImportPage w (GetReader imp) pageno box with
      | Except.error _ => Outcome.returns ((0, none), imp)
      | Except.ok res => Outcome.returns ((imp.tplN, none), importPost imp pageno res)

/-- Function `SetNextObjectID` from `importer.go`: forwards to the active writer
(panics when nil). -/
def SetNextObjectID (imp : Importer) (objId : Int) : Outcome Importer :=
  match GetWriter imp with
  | none => Outcome.panics
  | some w =>
    Outcome.returns
      { imp with writers := mapUpd imp.writers imp.sourceFile ({ w with nextObjId := objId }) }

/-- Shape of the value returned by `PutFormXobjects`: the name-to-integer
table on success, the propagated error otherwise. -/
def pfxPack (r : Except GoErr (List (String × PdfObjId))) :
    Option (List (String × Int)) × Option GoErr :=
  match r with
  | Except.error e => (none, some e)
  | Except.ok l => (some (l.map fun x => (x.1, x.2.id)), none)

/-- Function `PutFormXobjects` from `importer.go`: exports through the active writer
in sequential-id mode, without touching the hash-mode flag. -/
def PutFormXobjects (env : Env) (imp : Importer) :
    Outcome ((Option (List (String × Int)) × Option GoErr) × Importer) :=
  match GetWriter imp with
  | none => Outcome.panics
  | some w =>
    Outcome.returns (pfxPack (env.writerPutFormXobjects w (GetReader imp)), imp)

/-- Shape of the value returned by `PutFormXobjectsUnordered`: the
name-to-hash table on success, the propagated error otherwise. -/
def pfxuPack (r : Except GoErr (List (String × PdfObjId))) :
    Option (List (String × String)) × Option GoErr :=
  match r with
  | Except.error e => (none, some e)
  | Except.ok l => (some (l.map fun x => (x.1, x.2.hash)), none)

/-- State written by `SetUseHash(true)` on the active writer: the shared
writer object's hash-mode flag becomes true. -/
def hashPost (imp : Importer) (w : PdfWriter) : Importer :=
  { imp with writers := mapUpd imp.writers imp.sourceFile ({ w with useHash := true }) }

/-- Function `PutFormXobjectsUnordered` from `importer.go`: first sets the active
writer's hash-mode flag to true (`SetUseHash(true)` mutates the shared
writer), then exports through that same writer. -/
def PutFormXobjectsUnordered (env : Env) (imp : Importer) :
    Outcome ((Option (List (String × String)) × Option GoErr) × Importer) :=
  match GetWriter imp with
  | none => Outcome.panics
  | some w =>
    Outcome.returns
      (pfxuPack (env.writerPutFormXobjects ({ w with useHash := true })
        (GetReader (hashPost imp w))), hashPost imp w)

/-- Function `UseTemplate` from `importer.go`: looks `tplid` up in `tplMap` with no
presence check and immediately dereferences the resulting `*TplInfo`; a
never-allocated id yields a nil pointer and a panic.  The signature has no
error return at all. -/
def UseTemplate (env : Env) (imp : Importer) (tplid : Int)
    (x y wd ht : Rat) : Outcome (String × Rat × Rat × Rat × Rat) :=
  match imp.tplMap tplid with
  | none => Outcome.panics
  | some tplInfo =>
    match imp.writers tplInfo.Writer with
    | none => Outcome.panics
    | some w => Outcome.returns (env.writerUseTemplate w tplInfo.TemplateId x y wd ht)

/-- The coordinator's public operations, for quantifying over call
sequences.  The query operations (`getNumPages`, `getPageSizes`, the
import/object getters and `useTemplate`) never mutate the importer in the
source, and every panic in the mutating operations happens before any
mutation. -/
inductive Op where
  | setSourceFile : String → Op
  | setSourceStream : String → Op
  | importPage : Int → String → Op
  | putFormXobjects : Op
  | putFormXobjectsUnordered : Op
  | setNextObjectID : Int → Op
  | useTemplate : Int → Rat → Rat → Rat → Rat → Op
  | getNumPages : Op
  | getPageSizes : Op
  | getImportedObjects : Op
  | getImportedObjectsUnordered : Op
  | getImportedObjHashPos : Op

/-- State transition of one coordinator operation (a panicking call leaves
the state unchanged, since no reachable panic follows a mutation). -/
def stepOp (env : Env) (imp : Importer) : Op → Importer
  | Op.setSourceFile f => (SetSourceFile env imp f).2
  | Op.setSourceStream h => (SetSourceStream env imp h).2
  | Op.importPage p b =>
    match ImportPage env imp p b with
    | Outcome.returns (_, s') => s'
    | Outcome.panics => imp
  | Op.putFormXobjects =>
    match PutFormXobjects env imp with
    | Outcome.returns (_, s') => s'
    | Outcome.panics => imp
  | Op.putFormXobjectsUnordered =>
    match PutFormXobjectsUnordered env imp with
    | Outcome.returns (_, s') => s'
    | Outcome.panics => imp
  | Op.setNextObjectID n =>
    match SetNextObjectID imp n with
    | Outcome.returns s' => s'
    | Outcome.panics => imp
  | Op.useTemplate _ _ _ _ _ => imp
  | Op.getNumPages => imp
  | Op.getPageSizes => imp
  | Op.getImportedObjects => imp
  | Op.getImportedObjectsUnordered => imp
  | Op.getImportedObjHashPos => imp

/-- Run a sequence of coordinator operations. -/
def runOps (env : Env) (imp : Importer) (ops : List Op) : Importer :=
  ops.foldl (stepOp env) imp

/-- Importer states reachable from a fresh `NewImporter` through the public
operations. -/
inductive Reachable (env : Env) : Importer → Prop where
  | init : Reachable env (NewImporter env)
  | step : ∀ {s : Importer} (op : Op), Reachable env s → Reachable env (stepOp env s op)

/-- The template id of a non-panicking `ImportPage` result. -/
def importResultId (o : Outcome ((Int × Option GoErr) × Importer)) : Option Int :=
  match o with
  | Outcome.returns ((t, _), _) => some t
  | Outcome.panics => none

/-- The error slot of a non-panicking `ImportPage` result. -/
def importResultErr (o : Outcome ((Int × Option GoErr) × Importer)) :
    Option (Option GoErr) :=
  match o with
  | Outcome.returns ((_, e), _) => some e
  | Outcome.panics => none

/-- A call to `ImportPage` that succeeded: it returned `(t, nil)` and left
the page-cache entry for the requested page holding `t` (a fresh writer
extraction or a cache hit; the discarded-error path leaves no entry). -/
def SuccessfulImport (env : Env) (s : Importer) (p : Int) (b : String)
    (t : Int) (s' : Importer) : Prop :=
  ImportPage env s p b = Outcome.returns ((t, none), s') ∧
  s'.importedPages (pageNameNumber s.sourceFile p) = some t

/-- A call to `ImportPage` that missed the cache and whose writer
extraction succeeded: a genuinely new import. -/
def NewSuccessImport (env : Env) (s : Importer) (p : Int) (b : String)
    (t : Int) (s' : Importer) : Prop :=
  s.importedPages (pageNameNumber s.sourceFile p) = none ∧
  (∃ w r, GetWriter s = some w ∧
    env.writerImportPage w (GetReader s) p b = Except.ok r) ∧
  ImportPage env s p b = Outcome.returns ((t, none), s')

/-- Invariant of every reachable importer state: distinct cached pages hold
distinct template ids, every cached id is below the counter, and every
allocated `TplInfo` names a writer that is present in the registry. -/
def CoordInv (s : Importer) : Prop :=
  (∀ k1 k2 v, s.importedPages k1 = some v → s.importedPages k2 = some v → k1 = k2) ∧
  (∀ k v, s.importedPages k = some v → v < s.tplN) ∧
  (∀ t info, s.tplMap t = some info → (s.writers info.Writer).isSome = true)

/-- Decimal value of a digit string (used only in proofs, to invert the
zero-padded formatting). -/
def digitsToNat (l : List Char) : Nat :=
  l.foldl (fun a c => a * 10 + (c.toNat - 48)) 0

/-- Concrete collaborator behaviour where every construction, import and
export succeeds. -/
def envOk : Env :=
  { newPdfReader := fun _ => Except.ok { numPagesRes := Except.ok 3 }
    newPdfReaderFromStream := fun _ => Except.ok { numPagesRes := Except.ok 3 }
    newPdfWriter := fun _ => Except.ok { tplIdOffset := 0, useHash := false, nextObjId := 0 }
    writerImportPage := fun _ _ _ _ => Except.ok 1
    writerPutFormXobjects := fun _ _ =>
      Except.ok [("/GOFPDITPL1", { id := 1, hash := "da39a3ee" })]
    writerUseTemplate := fun _ _ x y wd ht => ("/GOFPDITPL1", x, y, wd, ht) }

/-- Concrete collaborator behaviour whose writer page-import always
fails. -/
def envFail : Env :=
  { envOk with writerImportPage := fun _ _ _ _ => Except.error "page import failed" }

/-- Concrete collaborator behaviour whose reader construction always
fails. -/
def envNoReader : Env :=
  { envOk with newPdfReader := fun _ => Except.error "cannot open file" }

/-- State after binding document `A.pdf` under the always-failing import
environment. -/
def impFailBound : Importer := (SetSourceFile envFail (NewImporter envFail) "A.pdf").2

/-- Scenario states for the all-success environment: bind `A.pdf`. -/
def impA : Importer := (SetSourceFile envOk (NewImporter envOk) "A.pdf").2

/-- Scenario: after importing page 1 of `A.pdf`. -/
def impA1 : Importer := stepOp envOk impA (Op.importPage 1 "/MediaBox")

/-- Scenario: after additionally re-importing page 1 and importing page 2
of `A.pdf`. -/
def impA2 : Importer :=
  stepOp envOk (stepOp envOk impA1 (Op.importPage 1 "/MediaBox")) (Op.importPage 2 "/MediaBox")

/-- Scenario: after additionally binding `B.pdf`. -/
def impB : Importer := (SetSourceFile envOk impA2 "B.pdf").2

/-- Collision scenario: bind document `a`. -/
def impColl1 : Importer := (SetSourceFile envOk (NewImporter envOk) "a").2

/-- Collision scenario: after importing page `-1234` of document `a`. -/
def impColl2 : Importer := stepOp envOk impColl1 (Op.importPage (-1234) "/MediaBox")

/-- Collision scenario: after additionally binding document `a-`. -/
def impColl3 : Importer := (SetSourceFile envOk impColl2 "a-").2

/-! ## Properties of the cache-key formatting -/

theorem digitChar_toNat {d : Nat} (h : d < 10) : (digitChar d).toNat = 48 + d := by
  interval_cases d <;> rfl

theorem digitChar_ne_dash (d : Nat) : digitChar d ≠ '-' := by
  unfold digitChar
  split <;> decide

theorem natDigitsCore_append (fuel : Nat) :
    ∀ n acc, natDigitsCore fuel n acc = natDigitsCore fuel n [] ++ acc := by
  induction fuel with
  | zero => intro n acc; rfl
  | succ fuel ih =>
    intro n acc
    by_cases h : n < 10
    · simp [natDigitsCore, h]
    · simp only [natDigitsCore, if_neg h]
      rw [ih (n / 10) (digitChar (n % 10) :: acc), ih (n / 10) [digitChar (n % 10)]]
      simp

theorem mem_natDigitsCore (fuel : Nat) :
    ∀ n acc c, c ∈ natDigitsCore fuel n acc → (∃ d, c = digitChar d) ∨ c ∈ acc := by
  induction fuel with
  | zero => intro n acc c hc; exact Or.inr hc
  | succ fuel ih =>
    intro n acc c hc
    by_cases h : n < 10
    · simp only [natDigitsCore, if_pos h, List.mem_cons] at hc
      rcases hc with hc | hc
      · exact Or.inl ⟨n, hc⟩
      · exact Or.inr hc
    · simp only [natDigitsCore, if_neg h] at hc
      rcases ih (n / 10) (digitChar (n % 10) :: acc) c hc with h1 | h1
      · exact Or.inl h1
      · rcases List.mem_cons.mp h1 with h2 | h2
        · exact Or.inl ⟨n % 10, h2⟩
        · exact Or.inr h2

theorem mem_natDigits_ne_dash {n : Nat} {c : Char} (hc : c ∈ natDigits n) : c ≠ '-' := by
  rcases mem_natDigitsCore (n + 1) n [] c hc with ⟨d, rfl⟩ | h
  · exact digitChar_ne_dash d
  · cases h

theorem digitsToNat_append_singleton (l : List Char) (c : Char) :
    digitsToNat (l ++ [c]) = digitsToNat l * 10 + (c.toNat - 48) := by
  unfold digitsToNat
  rw [List.foldl_append]
  rfl

theorem natDigitsCore_parse (fuel : Nat) :
    ∀ n, n < 10 ^ fuel → digitsToNat (natDigitsCore fuel n []) = n := by
  induction fuel with
  | zero =>
    intro n hn
    interval_cases n
    rfl
  | succ fuel ih =>
    intro n hn
    by_cases h : n < 10
    · simp only [natDigitsCore, if_pos h]
      show 0 * 10 + ((digitChar n).toNat - 48) = n
      rw [digitChar_toNat h]
      omega
    · simp only [natDigitsCore, if_neg h]
      rw [natDigitsCore_append, digitsToNat_append_singleton,
        ih (n / 10) (Nat.div_lt_of_lt_mul (by rw [pow_succ] at hn; omega)),
        digitChar_toNat (Nat.mod_lt n (by omega))]
      omega

theorem digitsToNat_natDigits (n : Nat) : digitsToNat (natDigits n) = n := by
  apply natDigitsCore_parse
  calc n < 10 ^ n := Nat.lt_pow_self (by omega) n
    _ ≤ 10 ^ (n + 1) := Nat.pow_le_pow_right (by omega) (Nat.le_succ n)

theorem digitsToNat_padLeft_zero (w : Nat) (l : List Char) :
    digitsToNat (padLeft '0' w l) = digitsToNat l := by
  unfold padLeft digitsToNat
  rw [List.foldl_append]
  have hz : ∀ k, List.foldl (fun a c => a * 10 + (c.toNat - 48)) 0 (List.replicate k '0') = 0 := by
    intro k
    induction k with
    | zero => rfl
    | succ k ihk => simpa [List.replicate_succ] using ihk
  rw [hz]

theorem mem_padLeft {c c' : Char} {w : Nat} {l : List Char}
    (h : c ∈ padLeft c' w l) : c = c' ∨ c ∈ l := by
  unfold padLeft at h
  rcases List.mem_append.mp h with h1 | h1
  · exact Or.inl (List.eq_of_mem_replicate h1)
  · exact Or.inr h1

theorem pad4_nonneg {p : Int} (h : 0 ≤ p) :
    pad4 p = padLeft '0' 4 (natDigits p.toNat) := by
  unfold pad4
  rw [if_neg (by omega)]

theorem pad4_ne_dash {p : Int} (h : 0 ≤ p) : ∀ c ∈ pad4 p, c ≠ '-' := by
  intro c hc
  rw [pad4_nonneg h] at hc
  rcases mem_padLeft hc with rfl | h1
  · decide
  · exact mem_natDigits_ne_dash h1

theorem pad4_inj {p1 p2 : Int} (h1 : 0 ≤ p1) (h2 : 0 ≤ p2)
    (h : pad4 p1 = pad4 p2) : p1 = p2 := by
  rw [pad4_nonneg h1, pad4_nonneg h2] at h
  have := congrArg digitsToNat h
  rw [digitsToNat_padLeft_zero, digitsToNat_padLeft_zero,
    digitsToNat_natDigits, digitsToNat_natDigits] at this
  omega

theorem dash_split_rev :
    ∀ (y1 y2 x1 x2 : List Char), (∀ c ∈ y1, c ≠ '-') → (∀ c ∈ y2, c ≠ '-') →
      y1 ++ '-' :: x1 = y2 ++ '-' :: x2 → y1 = y2 ∧ x1 = x2 := by
  intro y1
  induction y1 with
  | nil =>
    intro y2 x1 x2 _ hy2 heq
    cases y2 with
    | nil => simpa using heq
    | cons c t =>
      simp only [List.nil_append, List.cons_append, List.cons.injEq] at heq
      exact absurd heq.1.symm (hy2 c (List.mem_cons_self c t))
  | cons c t ih =>
    intro y2 x1 x2 hy1 hy2 heq
    cases y2 with
    | nil =>
      simp only [List.cons_append, List.nil_append, List.cons.injEq] at heq
      exact absurd heq.1 (hy1 c (List.mem_cons_self c t))
    | cons c2 t2 =>
      simp only [List.cons_append, List.cons.injEq] at heq
      obtain ⟨rfl, heq2⟩ := heq
      obtain ⟨h3, h4⟩ := ih t2 x1 x2
        (fun d hd => hy1 d (List.mem_cons_of_mem c hd))
        (fun d hd => hy2 d (List.mem_cons_of_mem c hd)) heq2
      exact ⟨by rw [h3], h4⟩

theorem dash_split {x1 x2 y1 y2 : List Char}
    (hy1 : ∀ c ∈ y1, c ≠ '-') (hy2 : ∀ c ∈ y2, c ≠ '-')
    (heq : x1 ++ '-' :: y1 = x2 ++ '-' :: y2) : x1 = x2 ∧ y1 = y2 := by
  have hrev : y1.reverse ++ '-' :: x1.reverse = y2.reverse ++ '-' :: x2.reverse := by
    have := congrArg List.reverse heq
    simpa [List.reverse_append] using this
  obtain ⟨h1, h2⟩ := dash_split_rev y1.reverse y2.reverse x1.reverse x2.reverse
    (fun c hc => hy1 c (List.mem_reverse.mp hc))
    (fun c hc => hy2 c (List.mem_reverse.mp hc)) hrev
  exact ⟨List.reverse_injective h2, List.reverse_injective h1⟩

theorem pageNameNumber_data (f : String) (p : Int) :
    (pageNameNumber f p).data = f.data ++ '-' :: pad4 p := by
  unfold pageNameNumber
  rw [String.data_append, String.data_append]
  simp

theorem pageNameNumber_inj {f1 f2 : String} {p1 p2 : Int}
    (h1 : 0 ≤ p1) (h2 : 0 ≤ p2)
    (h : pageNameNumber f1 p1 = pageNameNumber f2 p2) : f1 = f2 ∧ p1 = p2 := by
  have hd := congrArg String.data h
  rw [pageNameNumber_data, pageNameNumber_data] at hd
  obtain ⟨ha, hb⟩ := dash_split (pad4_ne_dash h1) (pad4_ne_dash h2) hd
  exact ⟨String.ext ha, pad4_inj h1 h2 hb⟩

/-! ## Basic operation lemmas -/

theorem GetReaderForFile_eq (imp : Importer) (f : String) :
    GetReaderForFile imp f = imp.readers f := by
  unfold GetReaderForFile
  cases h : imp.readers f <;> simp [h]

theorem GetWriterForFile_eq (imp : Importer) (f : String) :
    GetWriterForFile imp f = imp.writers f := by
  unfold GetWriterForFile
  cases h : imp.writers f <;> simp [h]

theorem GetReader_eq (imp : Importer) : GetReader imp = imp.readers imp.sourceFile := by
  unfold GetReader
  exact GetReaderForFile_eq imp imp.sourceFile

theorem GetWriter_eq (imp : Importer) : GetWriter imp = imp.writers imp.sourceFile := by
  unfold GetWriter
  exact GetWriterForFile_eq imp imp.sourceFile

theorem mapUpd_self {κ α : Type} [DecidableEq κ] (m : κ → Option α) (k : κ) (v : α) :
    mapUpd m k v k = some v := by
  unfold mapUpd
  rw [if_pos rfl]

theorem mapUpd_other {κ α : Type} [DecidableEq κ] {x k : κ} (m : κ → Option α) (v : α)
    (h : x ≠ k) : mapUpd m k v x = m x := by
  unfold mapUpd
  rw [if_neg h]

theorem setWriterPart_frame (env : Env) (s : Importer) :
    (setWriterPart env s).2.sourceFile = s.sourceFile ∧
    (setWriterPart env s).2.readers = s.readers ∧
    (setWriterPart env s).2.tplMap = s.tplMap ∧
    (setWriterPart env s).2.tplN = s.tplN ∧
    (setWriterPart env s).2.importedPages = s.importedPages := by
  unfold setWriterPart
  split
  · exact ⟨rfl, rfl, rfl, rfl, rfl⟩
  · split <;> exact ⟨rfl, rfl, rfl, rfl, rfl⟩

theorem setWriterPart_writers_some {env : Env} {s : Importer} {f : String} {w : PdfWriter}
    (h : s.writers f = some w) : (setWriterPart env s).2.writers f = some w := by
  unfold setWriterPart
  split
  · exact h
  · rename_i hnone
    split
    · exact h
    · show mapUpd s.writers s.sourceFile _ f = some w
      by_cases hf : f = s.sourceFile
      · rw [hf] at h
        rw [h] at hnone
        cases hnone
      · rw [mapUpd_other _ _ hf]
        exact h

theorem SetSourceFile_sourceFile (env : Env) (s : Importer) (f : String) :
    ((SetSourceFile env s f).2).sourceFile = f := by
  unfold SetSourceFile
  split
  · exact (setWriterPart_frame _ _).1
  · split
    · rfl
    · exact (setWriterPart_frame _ _).1

theorem SetSourceFile_importedPages (env : Env) (s : Importer) (f : String) :
    ((SetSourceFile env s f).2).importedPages = s.importedPages := by
  unfold SetSourceFile
  split
  · exact (setWriterPart_frame _ _).2.2.2.2
  · split
    · rfl
    · exact (setWriterPart_frame _ _).2.2.2.2

theorem SetSourceFile_tplMap (env : Env) (s : Importer) (f : String) :
    ((SetSourceFile env s f).2).tplMap = s.tplMap := by
  unfold SetSourceFile
  split
  · exact (setWriterPart_frame _ _).2.2.1
  · split
    · rfl
    · exact (setWriterPart_frame _ _).2.2.1

theorem SetSourceFile_tplN (env : Env) (s : Importer) (f : String) :
    ((SetSourceFile env s f).2).tplN = s.tplN := by
  unfold SetSourceFile
  split
  · exact (setWriterPart_frame _ _).2.2.2.1
  · split
    · rfl
    · exact (setWriterPart_frame _ _).2.2.2.1

theorem SetSourceFile_writers_some {env : Env} {s : Importer} {f f' : String} {w : PdfWriter}
    (h : s.writers f' = some w) : ((SetSourceFile env s f).2).writers f' = some w := by
  unfold SetSourceFile
  split
  · exact setWriterPart_writers_some h
  · split
    · exact h
    · exact setWriterPart_writers_some h

theorem SetSourceStream_sourceFile (env : Env) (s : Importer) (f : String) :
    ((SetSourceStream env s f).2).sourceFile = f := by
  unfold SetSourceStream
  split
  · exact (setWriterPart_frame _ _).1
  · split
    · rfl
    · exact (setWriterPart_frame _ _).1

theorem SetSourceStream_importedPages (env : Env) (s : Importer) (f : String) :
    ((SetSourceStream env s f).2).importedPages = s.importedPages := by
  unfold SetSourceStream
  split
  · exact (setWriterPart_frame _ _).2.2.2.2
  · split
    · rfl
    · exact (setWriterPart_frame _ _).2.2.2.2

theorem SetSourceStream_tplMap (env : Env) (s : Importer) (f : String) :
    ((SetSourceStream env s f).2).tplMap = s.tplMap := by
  unfold SetSourceStream
  split
  · exact (setWriterPart_frame _ _).2.2.1
  · split
    · rfl
    · exact (setWriterPart_frame _ _).2.2.1

theorem SetSourceStream_tplN (env : Env) (s : Importer) (f : String) :
    ((SetSourceStream env s f).2).tplN = s.tplN := by
  unfold SetSourceStream
  split
  · exact (setWriterPart_frame _ _).2.2.2.1
  · split
    · rfl
    · exact (setWriterPart_frame _ _).2.2.2.1

theorem SetSourceStream_writers_some {env : Env} {s : Importer} {f f' : String} {w : PdfWriter}
    (h : s.writers f' = some w) : ((SetSourceStream env s f).2).writers f' = some w := by
  unfold SetSourceStream
  split
  · exact setWriterPart_writers_some h
  · split
    · exact h
    · exact setWriterPart_writers_some h

/-! ## ImportPage characterization -/

theorem ImportPage_hit {env : Env} {s : Importer} {p : Int} {t : Int} (b : String)
    (h : s.importedPages (pageNameNumber s.sourceFile p) = some t) :
    ImportPage env s p b = Outcome.returns ((t, none), s) := by
  simp only [ImportPage, h]

theorem ImportPage_nil_writer {env : Env} {s : Importer} {p : Int} (b : String)
    (h1 : s.importedPages (pageNameNumber s.sourceFile p) = none)
    (h2 : GetWriter s = none) :
    ImportPage env s p b = Outcome.panics := by
  simp only [ImportPage, h1, h2]

theorem ImportPage_fail {env : Env} {s : Importer} {p : Int} {b : String}
    {w : PdfWriter} {e : GoErr}
    (h1 : s.importedPages (pageNameNumber s.sourceFile p) = none)
    (h2 : GetWriter s = some w)
    (h3 : env.writerImportPage w (GetReader s) p b = Except.error e) :
    ImportPage env s p b = Outcome.returns ((0, none), s) := by
  simp only [ImportPage, h1, h2, h3]

theorem ImportPage_ok {env : Env} {s : Importer} {p : Int} {b : String}
    {w : PdfWriter} {r : Int}
    (h1 : s.importedPages (pageNameNumber s.sourceFile p) = none)
    (h2 : GetWriter s = some w)
    (h3 : env.writerImportPage w (GetReader s) p b = Except.ok r) :
    ImportPage env s p b = Outcome.returns ((s.tplN, none), importPost s p r) := by
  simp only [ImportPage, h1, h2, h3]

theorem ImportPage_stepOp {env : Env} {s : Importer} {p : Int} {b : String}
    {x : Int × Option GoErr} {s' : Importer}
    (h : ImportPage env s p b = Outcome.returns (x, s')) :
    stepOp env s (Op.importPage p b) = s' := by
  simp only [stepOp, h]

/-! ## Step characterization of the mutating operations -/

theorem importPage_step_cases (env : Env) (s : Importer) (p : Int) (b : String) :
    stepOp env s (Op.importPage p b) = s ∨
    ∃ r w, s.importedPages (pageNameNumber s.sourceFile p) = none ∧ GetWriter s = some w ∧
      stepOp env s (Op.importPage p b) = importPost s p r := by
  cases h1 : s.importedPages (pageNameNumber s.sourceFile p) with
  | some t =>
    left
    simp only [stepOp, ImportPage_hit b h1]
  | none =>
    cases h2 : GetWriter s with
    | none =>
      left
      simp only [stepOp, ImportPage_nil_writer b h1 h2]
    | some w =>
      cases h3 : env.writerImportPage w (GetReader s) p b with
      | error e =>
        left
        simp only [stepOp, ImportPage_fail h1 h2 h3]
      | ok r =>
        right
        refine ⟨r, w, rfl, rfl, ?_⟩
        simp only [stepOp, ImportPage_ok h1 h2 h3]

theorem putFormXobjects_step (env : Env) (s : Importer) :
    stepOp env s Op.putFormXobjects = s := by
  cases h : GetWriter s with
  | none => simp only [stepOp, PutFormXobjects, h]
  | some w => simp only [stepOp, PutFormXobjects, h]

theorem putFormXobjectsUnordered_step (env : Env) (s : Importer) :
    stepOp env s Op.putFormXobjectsUnordered = s ∨
    ∃ w, GetWriter s = some w ∧
      stepOp env s Op.putFormXobjectsUnordered = hashPost s w := by
  cases h : GetWriter s with
  | none =>
    left
    simp only [stepOp, PutFormXobjectsUnordered, h]
  | some w =>
    right
    refine ⟨w, rfl, ?_⟩
    simp only [stepOp, PutFormXobjectsUnordered, h]

theorem setNextObjectID_step (env : Env) (s : Importer) (n : Int) :
    stepOp env s (Op.setNextObjectID n) = s ∨
    ∃ w, GetWriter s = some w ∧
      stepOp env s (Op.setNextObjectID n) =
        { s with writers := mapUpd s.writers s.sourceFile ({ w with nextObjId := n }) } := by
  cases h : GetWriter s with
  | none =>
    left
    simp only [stepOp, SetNextObjectID, h]
  | some w =>
    right
    refine ⟨w, rfl, ?_⟩
    simp only [stepOp, SetNextObjectID, h]

/-! ## Preservation lemmas -/

theorem stepOp_importedPages_persist (env : Env) (s : Importer) (op : Op) :
    ∀ k v, s.importedPages k = some v → (stepOp env s op).importedPages k = some v := by
  intro k v h
  cases op with
  | setSourceFile f =>
    show ((SetSourceFile env s f).2).importedPages k = some v
    rw [SetSourceFile_importedPages]
    exact h
  | setSourceStream f =>
    show ((SetSourceStream env s f).2).importedPages k = some v
    rw [SetSourceStream_importedPages]
    exact h
  | importPage p b =>
    rcases importPage_step_cases env s p b with he | ⟨r, w, hm, hw, he⟩
    · rw [he]
      exact h
    · rw [he]
      show mapUpd s.importedPages (pageNameNumber s.sourceFile p) s.tplN k = some v
      by_cases hk : k = pageNameNumber s.sourceFile p
      · rw [hk] at h
        rw [h] at hm
        cases hm
      · rw [mapUpd_other _ _ hk]
        exact h
  | putFormXobjects =>
    rw [putFormXobjects_step]
    exact h
  | putFormXobjectsUnordered =>
    rcases putFormXobjectsUnordered_step env s with he | ⟨w, _, he⟩ <;> rw [he] <;> exact h
  | setNextObjectID n =>
    rcases setNextObjectID_step env s n with he | ⟨w, _, he⟩ <;> rw [he] <;> exact h
  | useTemplate a b c d e => exact h
  | getNumPages => exact h
  | getPageSizes => exact h
  | getImportedObjects => exact h
  | getImportedObjectsUnordered => exact h
  | getImportedObjHashPos => exact h

theorem stepOp_tplN_mono (env : Env) (s : Importer) (op : Op) :
    s.tplN ≤ (stepOp env s op).tplN := by
  cases op with
  | setSourceFile f =>
    show s.tplN ≤ ((SetSourceFile env s f).2).tplN
    rw [SetSourceFile_tplN]
  | setSourceStream f =>
    show s.tplN ≤ ((SetSourceStream env s f).2).tplN
    rw [SetSourceStream_tplN]
  | importPage p b =>
    rcases importPage_step_cases env s p b with he | ⟨r, w, hm, hw, he⟩
    · rw [he]
    · rw [he]
      show s.tplN ≤ s.tplN + 1
      omega
  | putFormXobjects =>
    rw [putFormXobjects_step]
  | putFormXobjectsUnordered =>
    rcases putFormXobjectsUnordered_step env s with he | ⟨w, _, he⟩
    · rw [he]
    · rw [he]
      exact le_refl _
  | setNextObjectID n =>
    rcases setNextObjectID_step env s n with he | ⟨w, _, he⟩
    · rw [he]
    · rw [he]
  | useTemplate a b c d e => exact le_refl _
  | getNumPages => exact le_refl _
  | getPageSizes => exact le_refl _
  | getImportedObjects => exact le_refl _
  | getImportedObjectsUnordered => exact le_refl _
  | getImportedObjHashPos => exact le_refl _

theorem stepOp_writers_keep (env : Env) (s : Importer) (op : Op) :
    ∀ f w, s.writers f = some w →
      ∃ w', (stepOp env s op).writers f = some w' ∧
        (w.useHash = true → w'.useHash = true) := by
  intro f w h
  cases op with
  | setSourceFile f' =>
    exact ⟨w, SetSourceFile_writers_some h, fun hh => hh⟩
  | setSourceStream f' =>
    exact ⟨w, SetSourceStream_writers_some h, fun hh => hh⟩
  | importPage p b =>
    rcases importPage_step_cases env s p b with he | ⟨r, w0, hm, hw, he⟩
    · rw [he]
      exact ⟨w, h, fun hh => hh⟩
    · rw [he]
      exact ⟨w, h, fun hh => hh⟩
  | putFormXobjects =>
    rw [putFormXobjects_step]
    exact ⟨w, h, fun hh => hh⟩
  | putFormXobjectsUnordered =>
    rcases putFormXobjectsUnordered_step env s with he | ⟨w0, hw0, he⟩
    · rw [he]
      exact ⟨w, h, fun hh => hh⟩
    · rw [he]
      show ∃ w', (hashPost s w0).writers f = some w' ∧ _
      by_cases hf : f = s.sourceFile
      · refine ⟨{ w0 with useHash := true }, ?_, fun _ => rfl⟩
        show mapUpd s.writers s.sourceFile _ f = _
        rw [hf, mapUpd_self]
      · refine ⟨w, ?_, fun hh => hh⟩
        show mapUpd s.writers s.sourceFile _ f = some w
        rw [mapUpd_other _ _ hf]
        exact h
  | setNextObjectID n =>
    rcases setNextObjectID_step env s n with he | ⟨w0, hw0, he⟩
    · rw [he]
      exact ⟨w, h, fun hh => hh⟩
    · rw [he]
      by_cases hf : f = s.sourceFile
      · have hww : w0 = w := by
          rw [GetWriter_eq] at hw0
          rw [hf] at h
          rw [h] at hw0
          exact ((Option.some.injEq _ _).mp hw0).symm
        refine ⟨{ w0 with nextObjId := n }, ?_, fun hh => by rw [hww]; exact hh⟩
        show mapUpd s.writers s.sourceFile _ f = _
        rw [hf, mapUpd_self]
      · refine ⟨w, ?_, fun hh => hh⟩
        show mapUpd s.writers s.sourceFile _ f = some w
        rw [mapUpd_other _ _ hf]
        exact h
  | useTemplate a b c d e => exact ⟨w, h, fun hh => hh⟩
  | getNumPages => exact ⟨w, h, fun hh => hh⟩
  | getPageSizes => exact ⟨w, h, fun hh => hh⟩
  | getImportedObjects => exact ⟨w, h, fun hh => hh⟩
  | getImportedObjectsUnordered => exact ⟨w, h, fun hh => hh⟩
  | getImportedObjHashPos => exact ⟨w, h, fun hh => hh⟩

theorem stepOp_writers_isSome (env : Env) (s : Importer) (op : Op) :
    ∀ f, (s.writers f).isSome = true → ((stepOp env s op).writers f).isSome = true := by
  intro f hf
  rcases Option.isSome_iff_exists.mp hf with ⟨w, hw⟩
  rcases stepOp_writers_keep env s op f w hw with ⟨w', hw', _⟩
  rw [hw']
  rfl

/-! ## The reachable-state invariant -/

theorem CoordInv_of_frame {s s' : Importer}
    (hIP : s'.importedPages = s.importedPages)
    (hN : s'.tplN = s.tplN)
    (hM : s'.tplMap = s.tplMap)
    (hW : ∀ f, (s.writers f).isSome = true → (s'.writers f).isSome = true)
    (h : CoordInv s) : CoordInv s' := by
  obtain ⟨h1, h2, h3⟩ := h
  refine ⟨?_, ?_, ?_⟩
  · intro k1 k2 v hv1 hv2
    rw [hIP] at hv1 hv2
    exact h1 k1 k2 v hv1 hv2
  · intro k v hv
    rw [hIP] at hv
    rw [hN]
    exact h2 k v hv
  · intro t info ht
    rw [hM] at ht
    exact hW _ (h3 t info ht)

theorem CoordInv_importPost {s : Importer} {p : Int} {r : Int} {w : PdfWriter}
    (_hm : s.importedPages (pageNameNumber s.sourceFile p) = none)
    (hw : GetWriter s = some w)
    (h : CoordInv s) : CoordInv (importPost s p r) := by
  obtain ⟨h1, h2, h3⟩ := h
  refine ⟨?_, ?_, ?_⟩
  · intro k1 k2 v hv1 hv2
    simp only [importPost] at hv1 hv2
    by_cases e1 : k1 = pageNameNumber s.sourceFile p <;>
      by_cases e2 : k2 = pageNameNumber s.sourceFile p
    · rw [e1, e2]
    · rw [e1, mapUpd_self] at hv1
      rw [mapUpd_other _ _ e2] at hv2
      have hb := h2 k2 v hv2
      have hv : v = s.tplN := by
        have := (Option.some.injEq _ _).mp hv1
        omega
      omega
    · rw [e2, mapUpd_self] at hv2
      rw [mapUpd_other _ _ e1] at hv1
      have hb := h2 k1 v hv1
      have hv : v = s.tplN := by
        have := (Option.some.injEq _ _).mp hv2
        omega
      omega
    · rw [mapUpd_other _ _ e1] at hv1
      rw [mapUpd_other _ _ e2] at hv2
      exact h1 k1 k2 v hv1 hv2
  · intro k v hv
    simp only [importPost] at hv ⊢
    by_cases e : k = pageNameNumber s.sourceFile p
    · rw [e, mapUpd_self] at hv
      have := (Option.some.injEq _ _).mp hv
      omega
    · rw [mapUpd_other _ _ e] at hv
      have := h2 k v hv
      omega
  · intro t info ht
    simp only [importPost] at ht ⊢
    by_cases e : t = s.tplN
    · rw [e, mapUpd_self] at ht
      have hinfo := (Option.some.injEq _ _).mp ht
      rw [← hinfo]
      rw [GetWriter_eq] at hw
      rw [hw]
      rfl
    · rw [mapUpd_other _ _ e] at ht
      exact h3 t info ht

theorem stepOp_CoordInv (env : Env) (s : Importer) (op : Op)
    (h : CoordInv s) : CoordInv (stepOp env s op) := by
  have hW := stepOp_writers_isSome env s op
  cases op with
  | setSourceFile f =>
    exact CoordInv_of_frame (SetSourceFile_importedPages env s f)
      (SetSourceFile_tplN env s f) (SetSourceFile_tplMap env s f) hW h
  | setSourceStream f =>
    exact CoordInv_of_frame (SetSourceStream_importedPages env s f)
      (SetSourceStream_tplN env s f) (SetSourceStream_tplMap env s f) hW h
  | importPage p b =>
    rcases importPage_step_cases env s p b with he | ⟨r, w, hm, hw, he⟩
    · rw [he]
      exact h
    · rw [he]
      exact CoordInv_importPost hm hw h
  | putFormXobjects =>
    rw [putFormXobjects_step]
    exact h
  | putFormXobjectsUnordered =>
    rcases putFormXobjectsUnordered_step env s with he | ⟨w, hw, he⟩
    · rw [he]
      exact h
    · rw [he] at hW ⊢
      refine CoordInv_of_frame ?_ ?_ ?_ hW h <;> rfl
  | setNextObjectID n =>
    rcases setNextObjectID_step env s n with he | ⟨w, hw, he⟩
    · rw [he]
      exact h
    · rw [he] at hW ⊢
      refine CoordInv_of_frame ?_ ?_ ?_ hW h <;> rfl
  | useTemplate a b c d e => exact h
  | getNumPages => exact h
  | getPageSizes => exact h
  | getImportedObjects => exact h
  | getImportedObjectsUnordered => exact h
  | getImportedObjHashPos => exact h

theorem NewImporter_CoordInv (env : Env) : CoordInv (NewImporter env) := by
  refine ⟨?_, ?_, ?_⟩
  · intro k1 k2 v hv1 _
    simp [NewImporter] at hv1
  · intro k v hv
    simp [NewImporter] at hv
  · intro t info ht
    simp [NewImporter] at ht

theorem reachable_CoordInv {env : Env} {s : Importer} (h : Reachable env s) : CoordInv s := by
  induction h with
  | init => exact NewImporter_CoordInv env
  | step op _ ih => exact stepOp_CoordInv _ _ _ ih

/-! ## Lifting to operation sequences -/

theorem runOps_importedPages_persist (env : Env) (ops : List Op) :
    ∀ s k v, s.importedPages k = some v → (runOps env s ops).importedPages k = some v := by
  induction ops with
  | nil =>
    intro s k v h
    exact h
  | cons op ops ih =>
    intro s k v h
    exact ih _ k v (stepOp_importedPages_persist env s op k v h)

theorem runOps_tplN_mono (env : Env) (ops : List Op) :
    ∀ s, s.tplN ≤ (runOps env s ops).tplN := by
  induction ops with
  | nil =>
    intro s
    exact le_refl _
  | cons op ops ih =>
    intro s
    exact le_trans (stepOp_tplN_mono env s op) (ih _)

theorem runOps_writers_keep (env : Env) (ops : List Op) :
    ∀ s f w, s.writers f = some w → w.useHash = true →
      ∃ w', (runOps env s ops).writers f = some w' ∧ w'.useHash = true := by
  induction ops with
  | nil =>
    intro s f w h hh
    exact ⟨w, h, hh⟩
  | cons op ops ih =>
    intro s f w h hh
    rcases stepOp_writers_keep env s op f w h with ⟨w1, hw1, hkeep⟩
    exact ih _ f w1 hw1 (hkeep hh)

theorem reachable_runOps {env : Env} (ops : List Op) :
    ∀ {s : Importer}, Reachable env s → Reachable env (runOps env s ops) := by
  induction ops with
  | nil =>
    intro s h
    exact h
  | cons op ops ih =>
    intro s h
    exact ih (h.step op)

/-! ## Claims -/

/-- Claim C1, counterexample: with a Writer whose page-import operation
fails, the importer's `ImportPage` does not fail at all — the writer error
is discarded (`return 0, nil` at lines 154–156 of `importer.go`) and the
call reports success with id 0 and a nil error, so no `PageImportError`
carrying the underlying cause is produced. -/
theorem importPage_writer_failure_cex :
    envFail.writerImportPage { tplIdOffset := 0, useHash := false, nextObjId := 0 }
      (GetReader impFailBound) 1 "/MediaBox" = Except.error "page import failed" ∧
    importResultErr (ImportPage envFail impFailBound 1 "/MediaBox") = some none :=
  ⟨rfl, rfl⟩

/-- Claim C1 (amended): when the Writer's page-import operation fails,
`ImportPage` returns id 0 with a nil error (the underlying cause is
discarded, not propagated), and no TemplateId is allocated for that call:
the counter, the TplInfo index and the page cache are all unchanged. -/
theorem importPage_writer_failure_amended (env : Env) (imp : Importer)
    (p : Int) (b : String) (e : GoErr) (w : PdfWriter)
    (h1 : imp.importedPages (pageNameNumber imp.sourceFile p) = none)
    (h2 : GetWriter imp = some w)
    (h3 : env.writerImportPage w (GetReader imp) p b = Except.error e) :
    importResultErr (ImportPage env imp p b) = some none ∧
    ∃ s', ImportPage env imp p b = Outcome.returns ((0, none), s') ∧
      s'.tplN = imp.tplN ∧ (∀ i, s'.tplMap i = imp.tplMap i) ∧
      (∀ k, s'.importedPages k = imp.importedPages k) := by
  refine ⟨?_, imp, ImportPage_fail h1 h2 h3, rfl, fun i => rfl, fun k => rfl⟩
  rw [ImportPage_fail h1 h2 h3]
  rfl

/-- Witness for claim C1's amended theorem at a concrete failing input. -/
theorem importPage_writer_failure_amended_witness :
    importResultErr (ImportPage envFail impFailBound 2 "/MediaBox") = some none :=
  (importPage_writer_failure_amended envFail impFailBound 2 "/MediaBox"
    "page import failed" { tplIdOffset := 0, useHash := false, nextObjId := 0 }
    rfl rfl rfl).1

/-- Claim C2, counterexample: `UseTemplate` applied to the never-allocated
id 0 of a fresh importer does not fail with any `UnknownTemplateError`
(the function has no error channel and no such error exists in the code);
it dereferences the nil `*TplInfo` returned by the map lookup and
panics. -/
theorem useTemplate_unallocated_panics_cex :
    UseTemplate envOk (NewImporter envOk) 0 0 0 0 0 = Outcome.panics := rfl

/-- Claim C2 (amended): in every reachable importer state, `UseTemplate`
applied to an id holding a TplInfo entry (allocated by a successful
`ImportPage`) never panics, while `UseTemplate` applied to an id with no
entry always panics with a nil-pointer dereference — it does not raise an
`UnknownTemplateError`, which does not exist in the code. -/
theorem useTemplate_amended (env : Env) (imp : Importer) (t : Int) (x y wd ht : Rat)
    (hr : Reachable env imp) :
    ((∃ info, imp.tplMap t = some info) → UseTemplate env imp t x y wd ht ≠ Outcome.panics) ∧
    (imp.tplMap t = none → UseTemplate env imp t x y wd ht = Outcome.panics) := by
  constructor
  · rintro ⟨info, hinfo⟩
    have h3 := (reachable_CoordInv hr).2.2 t info hinfo
    rcases Option.isSome_iff_exists.mp h3 with ⟨w, hw⟩
    simp only [UseTemplate, hinfo, hw]
    intro hc
    exact Outcome.noConfusion hc
  · intro hnone
    simp only [UseTemplate, hnone]

/-- Witness for claim C2's amended theorem: after one successful import,
id 0 is placeable and id 7 panics. -/
theorem useTemplate_amended_witness :
    UseTemplate envOk impA1 0 0 0 0 0 ≠ Outcome.panics ∧
    UseTemplate envOk impA1 7 0 0 0 0 = Outcome.panics := by
  have hr : Reachable envOk impA1 :=
    Reachable.step (Op.importPage 1 "/MediaBox")
      (Reachable.step (Op.setSourceFile "A.pdf") Reachable.init)
  exact ⟨(useTemplate_amended envOk impA1 0 0 0 0 0 hr).1
           ⟨{ SourceFile := "A.pdf", Writer := "A.pdf", TemplateId := 1 }, rfl⟩,
         (useTemplate_amended envOk impA1 7 0 0 0 0 hr).2 rfl⟩

/-- Claim C3: the dedup-cache key is the document key plus the page number
and deliberately excludes the box.  (i) A fresh successful import records
the returned TemplateId in the page cache under the (document, page) key;
(ii) no coordinator operation ever removes or changes a cache entry;
(iii) whenever the (document, page) entry holds `t`, a later `ImportPage`
for that page — with ANY box argument and against ANY collaborator
behaviour, in particular without invoking the Writer's extraction — returns
exactly `t` and leaves the state untouched.  Together: the second import of
the same (document, page) with a different box returns the first import's
TemplateId and extraction runs at most once per (document, page). -/
theorem importPage_dedup_by_document_page :
    (∀ (env : Env) (imp : Importer) (p : Int) (b : String) (t : Int) (imp' : Importer)
       (w : PdfWriter) (r : Int),
       imp.importedPages (pageNameNumber imp.sourceFile p) = none →
       GetWriter imp = some w →
       env.writerImportPage w (GetReader imp) p b = Except.ok r →
       ImportPage env imp p b = Outcome.returns ((t, none), imp') →
       imp'.importedPages (pageNameNumber imp'.sourceFile p) = some t) ∧
    (∀ (env : Env) (s : Importer) (op : Op) (k : String) (v : Int),
       s.importedPages k = some v → (stepOp env s op).importedPages k = some v) ∧
    (∀ (env : Env) (imp : Importer) (p t : Int) (b2 : String),
       imp.importedPages (pageNameNumber imp.sourceFile p) = some t →
       ImportPage env imp p b2 = Outcome.returns ((t, none), imp)) := by
  refine ⟨?_, stepOp_importedPages_persist, ?_⟩
  · intro env imp p b t imp' w r h1 h2 h3 h4
    rw [ImportPage_ok h1 h2 h3] at h4
    injection h4 with h5
    injection h5 with h6 h7
    injection h6 with h8 _
    rw [← h7]
    show mapUpd imp.importedPages (pageNameNumber imp.sourceFile p) imp.tplN
      (pageNameNumber imp.sourceFile p) = some t
    rw [mapUpd_self, h8]
  · intro env imp p t b2 h
    exact ImportPage_hit b2 h

/-- Witness for claim C3: page 1 of `A.pdf` is cached with id 0, so
re-importing it with a different box under the always-failing writer
environment still returns 0 and changes nothing. -/
theorem importPage_dedup_by_document_page_witness :
    ImportPage envFail impA1 1 "/CropBox" = Outcome.returns ((0, none), impA1) :=
  importPage_dedup_by_document_page.2.2 envFail impA1 1 0 "/CropBox" rfl

/-- Claim C4, counterexample: `GetNumPages` on a fresh importer, whose
active document key has no bound Reader, panics (nil-Reader method call)
instead of failing with a `DocumentNotBoundError`, which does not exist in
the code. -/
theorem getNumPages_unbound_panics_cex :
    GetNumPages (NewImporter envOk) = Outcome.panics := rfl

/-- Claim C4 (amended): when the active document key has no bound Reader,
`GetNumPages` panics on the nil Reader (no `DocumentNotBoundError` is
raised); when a Reader is bound it returns the Reader's page count and
propagates the Reader's parse error. -/
theorem getNumPages_amended (imp : Importer) :
    (GetReader imp = none → GetNumPages imp = Outcome.panics) ∧
    (∀ r n, GetReader imp = some r → r.numPagesRes = Except.ok n →
      GetNumPages imp = Outcome.returns (n, none)) ∧
    (∀ r e, GetReader imp = some r → r.numPagesRes = Except.error e →
      GetNumPages imp = Outcome.returns (0, some e)) := by
  refine ⟨?_, ?_, ?_⟩
  · intro h
    simp only [GetNumPages, h]
  · intro r n h hr
    simp only [GetNumPages, h, hr]
  · intro r e h hr
    simp only [GetNumPages, h, hr]

/-- Witness for claim C4's amended theorem: with `A.pdf` bound to a
3-page Reader, `GetNumPages` returns 3. -/
theorem getNumPages_amended_witness :
    GetNumPages impFailBound = Outcome.returns (3, none) :=
  (getNumPages_amended impFailBound).2.1 { numPagesRes := Except.ok 3 } 3 rfl rfl

/-- Claim C6: when `ImportPage` fails at the Writer step, the coordinator
state is byte-for-byte unchanged — the global counter is not incremented
and no entry is added to the TplInfo index or the page cache; the call
returns with the importer exactly as it was. -/
theorem importPage_failure_state_unchanged (env : Env) (imp : Importer)
    (p : Int) (b : String) (e : GoErr) (w : PdfWriter)
    (h1 : imp.importedPages (pageNameNumber imp.sourceFile p) = none)
    (h2 : GetWriter imp = some w)
    (h3 : env.writerImportPage w (GetReader imp) p b = Except.error e) :
    ImportPage env imp p b = Outcome.returns ((0, none), imp) :=
  ImportPage_fail h1 h2 h3

/-- Witness for claim C6 at a concrete failing input. -/
theorem importPage_failure_state_unchanged_witness :
    ImportPage envFail impFailBound 3 "/MediaBox" =
      Outcome.returns ((0, none), impFailBound) :=
  importPage_failure_state_unchanged envFail impFailBound 3 "/MediaBox"
    "page import failed" { tplIdOffset := 0, useHash := false, nextObjId := 0 } rfl rfl rfl

/-- Claim C7: the reference scenario.  All collaborator calls succeed;
after binding `A.pdf`, importing page 1 returns TemplateId 0, importing
page 1 again returns 0, importing page 2 returns 1, and after binding
`B.pdf` importing its page 1 returns 2. -/
theorem import_scenario_template_ids :
    importResultId (ImportPage envOk impA 1 "/MediaBox") = some 0 ∧
    importResultId (ImportPage envOk impA1 1 "/MediaBox") = some 0 ∧
    importResultId (ImportPage envOk impA1 2 "/MediaBox") = some 1 ∧
    importResultId (ImportPage envOk impB 1 "/MediaBox") = some 2 :=
  ⟨rfl, rfl, rfl, rfl⟩

/-- Claim C8: for an unbound document key the Reader/Writer query
accessors return nil (absence, not a failure); for a bound key they return
the bound instance. -/
theorem accessors_absence (imp : Importer) (f : String) :
    (imp.readers f = none → GetReaderForFile imp f = none) ∧
    (∀ r, imp.readers f = some r → GetReaderForFile imp f = some r) ∧
    (imp.writers f = none → GetWriterForFile imp f = none) ∧
    (∀ w, imp.writers f = some w → GetWriterForFile imp f = some w) := by
  refine ⟨?_, ?_, ?_, ?_⟩
  · intro h
    rw [GetReaderForFile_eq]
    exact h
  · intro r h
    rw [GetReaderForFile_eq]
    exact h
  · intro h
    rw [GetWriterForFile_eq]
    exact h
  · intro w h
    rw [GetWriterForFile_eq]
    exact h

/-- Witness for claim C8: unknown key gives nil, bound key gives the bound
Reader. -/
theorem accessors_absence_witness :
    GetReaderForFile (NewImporter envOk) "Z.pdf" = none ∧
    GetReaderForFile impA "A.pdf" = some { numPagesRes := Except.ok 3 } :=
  ⟨(accessors_absence (NewImporter envOk) "Z.pdf").1 rfl,
   (accessors_absence impA "A.pdf").2.1 { numPagesRes := Except.ok 3 } rfl⟩

/-- Claim C9: `SetSourceFile` switches the active source key before
attempting Reader construction, so a call that fails with a Reader error
leaves the `readers` and `writers` registries unchanged while the active
key is already the failed document's; a subsequent `GetReader()` therefore
returns nil rather than the previously active Reader. -/
theorem setSourceFile_failure_frame (env : Env) (imp : Importer) (f : String) (e : GoErr)
    (h1 : imp.readers f = none) (h2 : env.newPdfReader f = Except.error e) :
    SetSourceFile env imp f = (some e, { imp with sourceFile := f }) ∧
    ((SetSourceFile env imp f).2).readers = imp.readers ∧
    ((SetSourceFile env imp f).2).writers = imp.writers ∧
    ((SetSourceFile env imp f).2).sourceFile = f ∧
    GetReader ((SetSourceFile env imp f).2) = none := by
  have heq : SetSourceFile env imp f = (some e, { imp with sourceFile := f }) := by
    simp only [SetSourceFile, h1, h2]
  refine ⟨heq, ?_, ?_, ?_, ?_⟩ <;> rw [heq]
  rw [GetReader_eq]
  exact h1

/-- Witness for claim C9: binding an unreadable document fails, switches
the active key, and leaves a nil active Reader. -/
theorem setSourceFile_failure_frame_witness :
    SetSourceFile envNoReader (NewImporter envNoReader) "X.pdf" =
      (some "cannot open file", { NewImporter envNoReader with sourceFile := "X.pdf" }) ∧
    GetReader ((SetSourceFile envNoReader (NewImporter envNoReader) "X.pdf").2) = none := by
  have h := setSourceFile_failure_frame envNoReader (NewImporter envNoReader)
    "X.pdf" "cannot open file" rfl rfl
  exact ⟨h.1, h.2.2.2.2⟩

/-! ## Claim C5 -/

theorem NewSuccessImport_tplN {env : Env} {s : Importer} {p : Int} {b : String}
    {t : Int} {s' : Importer} (h : NewSuccessImport env s p b t s') :
    t = s.tplN ∧ s'.tplN = s.tplN + 1 := by
  obtain ⟨hm, ⟨w, r, hw, hr⟩, heq⟩ := h
  rw [ImportPage_ok hm hw hr] at heq
  injection heq with h5
  injection h5 with h6 h7
  injection h6 with h8 _
  refine ⟨h8.symm, ?_⟩
  rw [← h7]
  rfl

theorem setWriterPart_offset {env : Env} {s : Importer}
    (h : s.writers s.sourceFile = none) :
    ∀ er s', setWriterPart env s = (er, s') →
      ∀ w', s'.writers s.sourceFile = some w' → w'.tplIdOffset = s.tplN := by
  intro er s' heq w' hw'
  unfold setWriterPart at heq
  rw [h] at heq
  cases hnw : env.newPdfWriter "" with
  | error e =>
    rw [hnw] at heq
    injection heq with _ h2
    rw [← h2] at hw'
    rw [h] at hw'
    cases hw'
  | ok w0 =>
    rw [hnw] at heq
    injection heq with _ h2
    rw [← h2] at hw'
    have hw2 : mapUpd s.writers s.sourceFile
        { tplIdOffset := s.tplN, useHash := w0.useHash, nextObjId := w0.nextObjId }
        s.sourceFile = some w' := hw'
    rw [mapUpd_self] at hw2
    injection hw2 with h3
    rw [← h3]

/-- Claim C5, counterexample: the dedup-cache key is built by string
concatenation (`"%s-%04d"`), so distinct documents can collide: document
`a` at page `-1234` and document `a-` at page `1234` both format to the key
`a--1234`.  After a successful import from `a`, the import from the
distinct document `a-` is served from the cache and returns the SAME
TemplateId 0 — refuting "imports from two distinct documents bound to the
same Coordinator never return the same TemplateId". -/
theorem templateId_cross_document_collision_cex :
    impColl1.sourceFile = "a" ∧ impColl3.sourceFile = "a-" ∧ ("a" : String) ≠ "a-" ∧
    pageNameNumber "a" (-1234) = pageNameNumber "a-" 1234 ∧
    importResultId (ImportPage envOk impColl1 (-1234) "/MediaBox") = some 0 ∧
    importResultErr (ImportPage envOk impColl1 (-1234) "/MediaBox") = some none ∧
    importResultId (ImportPage envOk impColl3 1234 "/AnyBox") = some 0 ∧
    importResultErr (ImportPage envOk impColl3 1234 "/AnyBox") = some none :=
  ⟨rfl, rfl, by decide, rfl, rfl, rfl, rfl, rfl⟩

/-- Claim C5 (amended): (i) successive new (non-cached) successful imports
return strictly increasing TemplateIds; (ii) successful imports from two
distinct documents never return the same TemplateId PROVIDED both page
numbers are non-negative — for negative page numbers the concatenated cache
key can collide across documents (see the counterexample), which is what
the amendment excludes; (iii) each newly created Writer receives a
template-id offset equal to the global counter's value at creation
time. -/
theorem templateId_allocation_amended :
    (∀ (env : Env) (s : Importer) (p : Int) (b : String) (t : Int) (s' : Importer)
       (ops : List Op) (s2 : Importer) (p2 : Int) (b2 : String) (t2 : Int) (s2' : Importer),
       NewSuccessImport env s p b t s' → runOps env s' ops = s2 →
       NewSuccessImport env s2 p2 b2 t2 s2' → t < t2) ∧
    (∀ (env : Env) (s1 : Importer) (d1 : String) (p1 : Int) (b1 : String) (t1 : Int)
       (s1' : Importer) (ops : List Op) (s2 : Importer) (d2 : String) (p2 : Int)
       (b2 : String) (t2 : Int) (s2' : Importer),
       Reachable env s1 → s1.sourceFile = d1 → s2.sourceFile = d2 →
       0 ≤ p1 → 0 ≤ p2 → d1 ≠ d2 →
       SuccessfulImport env s1 p1 b1 t1 s1' → runOps env s1' ops = s2 →
       SuccessfulImport env s2 p2 b2 t2 s2' → t1 ≠ t2) ∧
    (∀ (env : Env) (imp : Importer) (f : String) (er : Option GoErr) (s' : Importer),
       imp.writers f = none → SetSourceFile env imp f = (er, s') →
       ∀ w', s'.writers f = some w' → w'.tplIdOffset = imp.tplN) := by
  refine ⟨?_, ?_, ?_⟩
  · intro env s p b t s' ops s2 p2 b2 t2 s2' h1 hrun h2
    obtain ⟨ht1, hN1⟩ := NewSuccessImport_tplN h1
    obtain ⟨ht2, _⟩ := NewSuccessImport_tplN h2
    have hmono : s'.tplN ≤ s2.tplN := by
      rw [← hrun]
      exact runOps_tplN_mono env ops s'
    omega
  · intro env s1 d1 p1 b1 t1 s1' ops s2 d2 p2 b2 t2 s2'
      hr1 hsf1 hsf2 hp1 hp2 hne hS1 hrun hS2
    intro heq
    obtain ⟨heq1, hc1⟩ := hS1
    obtain ⟨heq2, hc2⟩ := hS2
    have hstep1 := ImportPage_stepOp heq1
    have hstep2 := ImportPage_stepOp heq2
    have hrs1' : Reachable env s1' := by
      rw [← hstep1]
      exact hr1.step _
    have hrs2 : Reachable env s2 := by
      rw [← hrun]
      exact reachable_runOps ops hrs1'
    have hrs2' : Reachable env s2' := by
      rw [← hstep2]
      exact hrs2.step _
    have hpers1 : s2.importedPages (pageNameNumber s1.sourceFile p1) = some t1 := by
      rw [← hrun]
      exact runOps_importedPages_persist env ops s1' _ t1 hc1
    have hpers2 : s2'.importedPages (pageNameNumber s1.sourceFile p1) = some t1 := by
      rw [← hstep2]
      exact stepOp_importedPages_persist env s2 _ _ t1 hpers1
    rw [← heq] at hc2
    have hkey := (reachable_CoordInv hrs2').1 _ _ t1 hpers2 hc2
    rw [hsf1, hsf2] at hkey
    obtain ⟨hd, _⟩ := pageNameNumber_inj hp1 hp2 hkey
    exact hne hd
  · intro env imp f er s' hnone heq w' hw'
    unfold SetSourceFile at heq
    cases hr0 : imp.readers f with
    | some r =>
      rw [hr0] at heq
      exact setWriterPart_offset hnone er s' heq w' hw'
    | none =>
      rw [hr0] at heq
      cases hnr : env.newPdfReader f with
      | error e =>
        rw [hnr] at heq
        injection heq with _ h2
        rw [← h2] at hw'
        have hw2 : imp.writers f = some w' := hw'
        rw [hnone] at hw2
        cases hw2
      | ok r =>
        rw [hnr] at heq
        exact setWriterPart_offset hnone er s' heq w' hw'

/-- Witness for claim C5's amended theorem: importing pages 1 and 2 of
`A.pdf` returns 0 then 1 (strictly increasing); `A.pdf` page 1 and
`B.pdf` page 1 return 0 and 1 (distinct across documents); the writer
created for `A.pdf` received offset 0, the counter's value at creation. -/
theorem templateId_allocation_amended_witness :
    (0 : Int) < 1 ∧ (0 : Int) ≠ 1 ∧
    ({ tplIdOffset := 0, useHash := false, nextObjId := 0 } : PdfWriter).tplIdOffset =
      (NewImporter envOk).tplN := by
  refine ⟨?_, ?_, ?_⟩
  · exact templateId_allocation_amended.1 envOk impA 1 "/MediaBox" 0 impA1 [] impA1
      2 "/MediaBox" 1 (stepOp envOk impA1 (Op.importPage 2 "/MediaBox"))
      ⟨rfl, ⟨{ tplIdOffset := 0, useHash := false, nextObjId := 0 }, 1, rfl, rfl⟩, rfl⟩
      rfl
      ⟨rfl, ⟨{ tplIdOffset := 0, useHash := false, nextObjId := 0 }, 1, rfl, rfl⟩, rfl⟩
  · exact templateId_allocation_amended.2.1 envOk impA "A.pdf" 1 "/MediaBox" 0 impA1
      [Op.setSourceFile "B.pdf"] ((SetSourceFile envOk impA1 "B.pdf").2) "B.pdf"
      1 "/MediaBox" 1
      (stepOp envOk ((SetSourceFile envOk impA1 "B.pdf").2) (Op.importPage 1 "/MediaBox"))
      (Reachable.step (Op.setSourceFile "A.pdf") Reachable.init)
      rfl rfl (by decide) (by decide) (by decide)
      ⟨rfl, rfl⟩ rfl ⟨rfl, rfl⟩
  · exact templateId_allocation_amended.2.2 envOk (NewImporter envOk) "A.pdf" none impA
      rfl rfl { tplIdOffset := 0, useHash := false, nextObjId := 0 } rfl

/-! ## Claim C10 -/

/-- Claim C10: `PutFormXobjectsUnordered` sets the active Writer's
hash-mode flag to true before exporting (the export call receives the
flag-true writer and the registry holds it afterwards); no coordinator
operation ever resets the flag to false (it survives any sequence of
operations); and a later `PutFormXobjects` through a writer whose flag is
true exports with that same writer, i.e. with hash mode still enabled. -/
theorem useHash_monotone :
    (∀ (env : Env) (imp : Importer) (w : PdfWriter),
       GetWriter imp = some w →
       PutFormXobjectsUnordered env imp =
         Outcome.returns
           (pfxuPack (env.writerPutFormXobjects ({ w with useHash := true })
             (GetReader (hashPost imp w))), hashPost imp w) ∧
       (hashPost imp w).writers imp.sourceFile = some ({ w with useHash := true })) ∧
    (∀ (env : Env) (s : Importer) (ops : List Op) (f : String) (w : PdfWriter),
       s.writers f = some w → w.useHash = true →
       ∃ w', (runOps env s ops).writers f = some w' ∧ w'.useHash = true) ∧
    (∀ (env : Env) (imp : Importer) (w : PdfWriter),
       GetWriter imp = some w → w.useHash = true →
       PutFormXobjects env imp =
         Outcome.returns (pfxPack (env.writerPutFormXobjects w (GetReader imp)), imp)) := by
  refine ⟨?_, ?_, ?_⟩
  · intro env imp w hw
    constructor
    · simp only [PutFormXobjectsUnordered, hw]
    · show mapUpd imp.writers imp.sourceFile _ imp.sourceFile = _
      rw [mapUpd_self]
  · intro env s ops f w hw hh
    exact runOps_writers_keep env ops s f w hw hh
  · intro env imp w hw _
    simp only [PutFormXobjects, hw]

/-- Witness for claim C10: enabling hash mode on `A.pdf`'s writer leaves a
flag-true writer in the registry, the flag survives a further import and a
sequential export, and the later sequential export runs with the flag-true
writer. -/
theorem useHash_monotone_witness :
    (hashPost impA { tplIdOffset := 0, useHash := false, nextObjId := 0 }).writers "A.pdf" =
      some { tplIdOffset := 0, useHash := true, nextObjId := 0 } ∧
    (∃ w', (runOps envOk (hashPost impA { tplIdOffset := 0, useHash := false, nextObjId := 0 })
        [Op.importPage 1 "/MediaBox", Op.putFormXobjects]).writers "A.pdf" = some w' ∧
      w'.useHash = true) ∧
    PutFormXobjects envOk (hashPost impA { tplIdOffset := 0, useHash := false, nextObjId := 0 }) =
      Outcome.returns (pfxPack (envOk.writerPutFormXobjects
        { tplIdOffset := 0, useHash := true, nextObjId := 0 }
        (GetReader (hashPost impA { tplIdOffset := 0, useHash := false, nextObjId := 0 }))),
        hashPost impA { tplIdOffset := 0, useHash := false, nextObjId := 0 }) := by
  refine ⟨?_, ?_, ?_⟩
  · exact (useHash_monotone.1 envOk impA
      { tplIdOffset := 0, useHash := false, nextObjId := 0 } rfl).2
  · exact useHash_monotone.2.1 envOk
      (hashPost impA { tplIdOffset := 0, useHash := false, nextObjId := 0 })
      [Op.importPage 1 "/MediaBox", Op.putFormXobjects] "A.pdf"
      { tplIdOffset := 0, useHash := true, nextObjId := 0 } rfl rfl
  · exact useHash_monotone.2.2 envOk
      (hashPost impA { tplIdOffset := 0, useHash := false, nextObjId := 0 })
      { tplIdOffset := 0, useHash := true, nextObjId := 0 } rfl rfl
